import Mathlib

/-!
# Verified model of the Memberstack boilerplate access-control core

Shallow embedding of the plan-based access-control engine:
* data model from `lib/auth-config.ts` (`AuthRoute`, `PlanConfig`, `RedirectConfig`,
  `ContentGatingRule`, `AuthConfig`) and `lib/auth-utils.ts` (`Member`, `PlanConnection`,
  `AccessCheckResult`);
* member-capability resolvers and access evaluators from `lib/auth-utils.ts`
  (`getActivePlanIds`, `getActivePlans`, `getPrimaryPlan`, `hasPlan`, `getMemberFeatures`,
  `getMemberPermissions`, `hasRouteAccess`, `hasFeatureAccess`, `hasComponentAccess`,
  `canUpgradeToPlan`);
* the validator `validateAuthConfig` and lookup helper `getHighestPriorityPlan` from
  `lib/auth-config.ts`, together with the concrete `authConfig` rule set.

Modelling conventions:
* TypeScript `X | null` / optional fields become `Option`; `x && x.length > 0` guards on
  optional arrays become `hasEntries`.
* A JS object used as a string-keyed map (`Record<string, T>`) becomes an association list
  in insertion order; `recordLookup` is property access (`obj[key]`), returning the first
  binding.
* `Array.prototype.sort` with comparator `(a, b) => b.priority - a.priority` is a stable
  descending sort; it is modelled by `List.insertionSort` with the relation `planOrder`
  (which is stable in exactly the same way: ties keep input order).
* `new Set([...])` iteration order (first occurrence wins) is `jsSetDedup`.
* `String.prototype.startsWith` is `jsStartsWith`, the prefix test on character lists
  (kept kernel-reducible on purpose).
* The TS functions close over the module-level `authConfig`; here the rule set is an
  explicit first parameter, and the concrete `authConfig` value is also defined.
* `Member` keeps the fields the evaluators read (`id`, `permissions`, `planConnections`);
  profile/auth metadata fields that no embedded function reads are omitted.
-/

-- =============================================================================
-- DATA MODEL
-- =============================================================================

structure PlanConfig where
  id : String
  name : String
  routes : List String
  features : List String
  permissions : List String
  priority : Int
  deriving Repr, DecidableEq

structure AuthRoute where
  path : String
  requiredPlans : Option (List String) := none
  requiredPermissions : Option (List String) := none
  requiredFeatures : Option (List String) := none
  allowUnauthenticated : Option Bool := none
  customRedirect : Option String := none
  deriving Repr, DecidableEq

structure RedirectConfig where
  unauthenticated : String
  afterLogin : String
  afterSignup : String
  afterLogout : String
  insufficientPermissions : String
  planRequired : String
  deriving Repr, DecidableEq

structure ContentGatingRule where
  component : String
  requiredPlans : Option (List String) := none
  requiredPermissions : Option (List String) := none
  requiredFeatures : Option (List String) := none
  fallbackComponent : Option String := none
  deriving Repr, DecidableEq

/-- A JS `Record<string, T>` as an association list in insertion order. -/
def JsRecord (α : Type) : Type := List (String × α)

structure RoutesConfig where
  protectedRoutes : List AuthRoute
  publicRoutes : List String
  redirects : RedirectConfig
  deriving Repr, DecidableEq

structure ContentGatingConfig where
  components : JsRecord ContentGatingRule
  features : JsRecord (List String)

structure SettingsConfig where
  enableDebugMode : Bool
  sessionTimeout : Nat
  redirectDelay : Nat
  cacheExpiry : Nat
  deriving Repr, DecidableEq

structure AuthConfig where
  routes : RoutesConfig
  plans : JsRecord PlanConfig
  contentGating : ContentGatingConfig
  settings : SettingsConfig

structure PlanConnection where
  id : String
  planId : String
  active : Bool
  status : String
  type : String
  deriving Repr, DecidableEq

structure Member where
  id : String
  permissions : List String
  planConnections : List PlanConnection
  deriving Repr, DecidableEq

structure AccessCheckResult where
  hasAccess : Bool
  reason : Option String := none
  requiredPlans : Option (List String) := none
  requiredPermissions : Option (List String) := none
  suggestedAction : Option String := none
  deriving Repr, DecidableEq

-- =============================================================================
-- JS PRIMITIVES
-- =============================================================================

/-- Property access `record[key]`: the first binding for `key`, if any. -/
def recordLookup {α : Type} (record : JsRecord α) (key : String) : Option α :=
  (record.find? (fun binding => binding.1 == key)).map (·.2)

/-- The guard `xs && xs.length > 0` on an optional array. -/
def hasEntries (o : Option (List String)) : Bool :=
  !(o.getD []).isEmpty

/-- `String.prototype.startsWith`: is `pre` a prefix of `s`? -/
def jsStartsWith (s pre : String) : Bool :=
  pre.data.isPrefixOf s.data

/-- Worker for `jsSetDedup`: keep elements not already seen. -/
def jsSetDedupAux (seen : List String) : List String → List String
  | [] => []
  | x :: xs =>
    if seen.contains x then jsSetDedupAux seen xs
    else x :: jsSetDedupAux (x :: seen) xs

/-- Iteration order of `new Set(l)`: first occurrence of each element wins. -/
def jsSetDedup (l : List String) : List String := jsSetDedupAux [] l

/-- The comparator `(a, b) => b.priority - a.priority`: `a` sorts no later than `b`
iff `a.priority ≥ b.priority` (descending). -/
def planOrder (a b : PlanConfig) : Prop := b.priority ≤ a.priority

instance : DecidableRel planOrder := fun a b =>
  inferInstanceAs (Decidable (b.priority ≤ a.priority))

instance : IsTotal PlanConfig planOrder := ⟨fun a b => le_total b.priority a.priority⟩

instance : IsTrans PlanConfig planOrder :=
  ⟨fun _ _ _ h1 h2 => le_trans h2 h1⟩

-- =============================================================================
-- CONFIG MODULE (`lib/auth-config.ts`)
-- =============================================================================

/-- `validateAuthConfig` from `lib/auth-config.ts`: dangling plan references of
protected routes, dangling feature references of content-gating rules, and
malformed redirect paths, in that order. -/
def validateAuthConfig (config : AuthConfig) : List String :=
  let routeErrors := config.routes.protectedRoutes.flatMap (fun route =>
    (route.requiredPlans.getD []).filterMap (fun planId =>
      if (recordLookup config.plans planId).isNone then
        some ("Route " ++ route.path ++ " references non-existent plan: " ++ planId)
      else none))
  let componentErrors := config.contentGating.components.flatMap (fun entry =>
    (entry.2.requiredFeatures.getD []).filterMap (fun feature =>
      if (recordLookup config.contentGating.features feature).isNone then
        some ("Component " ++ entry.1 ++ " references non-existent feature: " ++ feature)
      else none))
  let redirectErrors :=
    ([config.routes.redirects.unauthenticated,
      config.routes.redirects.afterLogin,
      config.routes.redirects.afterSignup,
      config.routes.redirects.afterLogout,
      config.routes.redirects.insufficientPermissions,
      config.routes.redirects.planRequired]).filterMap (fun path =>
      if !(jsStartsWith path "/") then
        some ("Invalid redirect path: " ++ path ++ " (must start with /)")
      else none)
  routeErrors ++ componentErrors ++ redirectErrors

/-- `getHighestPriorityPlan` from `lib/auth-config.ts` (parameterised by the rule set
the TS module closes over). -/
def getHighestPriorityPlan (cfg : AuthConfig) (memberPlans : List String) : Option PlanConfig :=
  let validPlans :=
    (memberPlans.filterMap (recordLookup cfg.plans)).insertionSort planOrder
  validPlans.head?

/-- `isProtectedRoute` from `lib/auth-config.ts`. -/
def isProtectedRoute (cfg : AuthConfig) (path : String) : Bool :=
  cfg.routes.protectedRoutes.any (fun route =>
    jsStartsWith path route.path || route.path == path)

-- =============================================================================
-- MEMBER UTILITIES (`lib/auth-utils.ts`)
-- =============================================================================

/-- `getActivePlanIds`. -/
def getActivePlanIds (member : Option Member) : List String :=
  match member with
  | none => []
  | some m => (m.planConnections.filter (·.active)).map (·.planId)

/-- `getPrimaryPlan`. -/
def getPrimaryPlan (cfg : AuthConfig) (member : Option Member) : Option PlanConfig :=
  getHighestPriorityPlan cfg (getActivePlanIds member)

/-- `getActivePlans`: resolve active plan ids, drop unknown ids, stable-sort by
priority descending. -/
def getActivePlans (cfg : AuthConfig) (member : Option Member) : List PlanConfig :=
  ((getActivePlanIds member).filterMap (recordLookup cfg.plans)).insertionSort planOrder

/-- `hasPlan` (list form of the `string | string[]` argument). -/
def hasPlan (member : Option Member) (planIds : List String) : Bool :=
  match member with
  | none => false
  | some _ => planIds.any (fun planId => (getActivePlanIds member).contains planId)

/-- `getMemberFeatures`: union of the features of all active plans, in `Set` order. -/
def getMemberFeatures (cfg : AuthConfig) (member : Option Member) : List String :=
  jsSetDedup ((getActivePlans cfg member).flatMap (·.features))

/-- `getMemberPermissions`: member's direct permissions unioned with all active plans'
permissions, in `Set` order. -/
def getMemberPermissions (cfg : AuthConfig) (member : Option Member) : List String :=
  match member with
  | none => []
  | some m =>
    jsSetDedup (m.permissions ++ (getActivePlans cfg member).flatMap (·.permissions))

-- =============================================================================
-- ACCESS CONTROL UTILITIES (`lib/auth-utils.ts`)
-- =============================================================================

/-- The route lookup at the head of `hasRouteAccess`:
`authConfig.routes.protected.find(route => path.startsWith(route.path) || route.path === path)`. -/
def findProtectedRoute (cfg : AuthConfig) (path : String) : Option AuthRoute :=
  cfg.routes.protectedRoutes.find? (fun route =>
    jsStartsWith path route.path || route.path == path)

/-- `hasRouteAccess`. -/
def hasRouteAccess (cfg : AuthConfig) (member : Option Member) (path : String) :
    AccessCheckResult :=
  match findProtectedRoute cfg path with
  | none => { hasAccess := true }
  | some protectedRoute =>
    if !(protectedRoute.allowUnauthenticated.getD false) && member.isNone then
      { hasAccess := false
        reason := some "Authentication required"
        suggestedAction := some "Please log in to access this page" }
    else if hasEntries protectedRoute.requiredPlans &&
        !(hasPlan member (protectedRoute.requiredPlans.getD [])) then
      { hasAccess := false
        reason := some "Plan upgrade required"
        requiredPlans := protectedRoute.requiredPlans
        suggestedAction := some "Please upgrade your plan to access this feature" }
    else if hasEntries protectedRoute.requiredPermissions &&
        !((protectedRoute.requiredPermissions.getD []).any (fun permission =>
          (getMemberPermissions cfg member).contains permission)) then
      { hasAccess := false
        reason := some "Insufficient permissions"
        requiredPermissions := protectedRoute.requiredPermissions
        suggestedAction := some "You do not have permission to access this page" }
    else { hasAccess := true }

/-- `hasFeatureAccess`. -/
def hasFeatureAccess (cfg : AuthConfig) (member : Option Member) (feature : String) :
    AccessCheckResult :=
  match recordLookup cfg.contentGating.features feature with
  | none => { hasAccess := false, reason := some ("Unknown feature: " ++ feature) }
  | some requiredPlans =>
    match member with
    | none =>
      { hasAccess := false
        reason := some "Authentication required"
        requiredPlans := some requiredPlans
        suggestedAction := some "Please log in to access this feature" }
    | some _ =>
      if !(hasPlan member requiredPlans) then
        { hasAccess := false
          reason := some "Plan upgrade required"
          requiredPlans := some requiredPlans
          suggestedAction := some "Please upgrade your plan to access this feature" }
      else { hasAccess := true }

/-- `hasComponentAccess`. -/
def hasComponentAccess (cfg : AuthConfig) (member : Option Member) (componentName : String) :
    AccessCheckResult :=
  match recordLookup cfg.contentGating.components componentName with
  | none => { hasAccess := true }
  | some rule =>
    match member with
    | none =>
      { hasAccess := false
        reason := some "Authentication required"
        requiredPlans := rule.requiredPlans
        suggestedAction := some "Please log in to access this feature" }
    | some _ =>
      if hasEntries rule.requiredPlans &&
          !(hasPlan member (rule.requiredPlans.getD [])) then
        { hasAccess := false
          reason := some "Plan upgrade required"
          requiredPlans := rule.requiredPlans
          suggestedAction := some "Please upgrade your plan to access this feature" }
      else if hasEntries rule.requiredPermissions &&
          !((rule.requiredPermissions.getD []).any (fun permission =>
            (getMemberPermissions cfg member).contains permission)) then
        { hasAccess := false
          reason := some "Insufficient permissions"
          requiredPermissions := rule.requiredPermissions
          suggestedAction := some "You do not have permission to access this feature" }
      else if hasEntries rule.requiredFeatures &&
          !((rule.requiredFeatures.getD []).any (fun feature =>
            (getMemberFeatures cfg member).contains feature)) then
        { hasAccess := false
          reason := some "Feature not available in your plan"
          suggestedAction := some "Please upgrade your plan to access this feature" }
      else { hasAccess := true }

/-- `canUpgradeToPlan`. -/
def canUpgradeToPlan (cfg : AuthConfig) (member : Option Member) (targetPlanId : String) :
    Bool :=
  match member with
  | none => true
  | some _ =>
    match getPrimaryPlan cfg member, recordLookup cfg.plans targetPlanId with
    | some currentPlan, some targetPlan => currentPlan.priority < targetPlan.priority
    | _, _ => false

-- =============================================================================
-- THE CONCRETE RULE SET (`authConfig` in `lib/auth-config.ts`)
-- =============================================================================

/-- The shipped `authConfig` rule set. (`settings.enableDebugMode` is
`process.env.NODE_ENV === "development"`; it is environment-dependent and read by no
embedded function, modelled as `false`.) -/
def authConfig : AuthConfig :=
  { routes :=
      { protectedRoutes :=
          [ { path := "/dashboard"
              requiredPlans := some ["pln_free", "pln_premium", "pln_enterprise"]
              allowUnauthenticated := some false }
          , { path := "/profile"
              requiredPlans := some ["pln_free", "pln_premium", "pln_enterprise"]
              allowUnauthenticated := some false }
          , { path := "/premium"
              requiredPlans := some ["pln_premium", "pln_enterprise"]
              allowUnauthenticated := some false
              customRedirect := some "/pricing" }
          , { path := "/analytics"
              requiredPlans := some ["pln_premium", "pln_enterprise"]
              requiredFeatures := some ["advanced-analytics"]
              allowUnauthenticated := some false }
          , { path := "/admin"
              requiredPlans := some ["pln_enterprise"]
              requiredPermissions := some ["admin"]
              allowUnauthenticated := some false
              customRedirect := some "/dashboard" }
          , { path := "/settings"
              requiredPlans := some ["pln_free", "pln_premium", "pln_enterprise"]
              allowUnauthenticated := some false } ]
        publicRoutes :=
          ["/", "/login", "/signup", "/pricing", "/about", "/contact", "/terms",
           "/privacy", "/forgot-password", "/reset-password"]
        redirects :=
          { unauthenticated := "/login"
            afterLogin := "/dashboard"
            afterSignup := "/dashboard"
            afterLogout := "/"
            insufficientPermissions := "/dashboard"
            planRequired := "/pricing" } }
    plans :=
      [ ("pln_free",
          { id := "pln_free"
            name := "Free Plan"
            routes := ["/dashboard", "/profile", "/settings"]
            features := ["basic-support", "core-features", "basic-analytics",
                         "profile-management"]
            permissions := ["read"]
            priority := 1 })
      , ("pln_premium",
          { id := "pln_premium"
            name := "Premium Plan"
            routes := ["/dashboard", "/profile", "/premium", "/analytics", "/settings"]
            features := ["priority-support", "advanced-features", "advanced-analytics",
                         "api-access", "export-data", "custom-branding",
                         "profile-management"]
            permissions := ["read", "write"]
            priority := 2 })
      , ("pln_enterprise",
          { id := "pln_enterprise"
            name := "Enterprise Plan"
            routes := ["*"]
            features := ["dedicated-support", "enterprise-features", "advanced-analytics",
                         "api-access", "export-data", "custom-branding", "white-label",
                         "sso", "audit-logs", "profile-management"]
            permissions := ["read", "write", "admin"]
            priority := 3 }) ]
    contentGating :=
      { components :=
          [ ("PremiumBanner",
              { component := "PremiumBanner"
                requiredPlans := some ["pln_premium", "pln_enterprise"] })
          , ("AnalyticsDashboard",
              { component := "AnalyticsDashboard"
                requiredPlans := some ["pln_premium", "pln_enterprise"]
                requiredFeatures := some ["advanced-analytics"]
                fallbackComponent := some "BasicAnalytics" })
          , ("AdminPanel",
              { component := "AdminPanel"
                requiredPlans := some ["pln_enterprise"]
                requiredPermissions := some ["admin"]
                fallbackComponent := some "AccessDenied" })
          , ("APIAccessCard",
              { component := "APIAccessCard"
                requiredPlans := some ["pln_premium", "pln_enterprise"]
                requiredFeatures := some ["api-access"] })
          , ("ExportButton",
              { component := "ExportButton"
                requiredPlans := some ["pln_premium", "pln_enterprise"]
                requiredFeatures := some ["export-data"] })
          , ("CustomBrandingSettings",
              { component := "CustomBrandingSettings"
                requiredPlans := some ["pln_premium", "pln_enterprise"]
                requiredFeatures := some ["custom-branding"] })
          , ("WhiteLabelSettings",
              { component := "WhiteLabelSettings"
                requiredPlans := some ["pln_enterprise"]
                requiredFeatures := some ["white-label"] }) ]
        features :=
          [ ("basic-support", ["pln_free", "pln_premium", "pln_enterprise"])
          , ("priority-support", ["pln_premium", "pln_enterprise"])
          , ("dedicated-support", ["pln_enterprise"])
          , ("core-features", ["pln_free", "pln_premium", "pln_enterprise"])
          , ("advanced-features", ["pln_premium", "pln_enterprise"])
          , ("enterprise-features", ["pln_enterprise"])
          , ("basic-analytics", ["pln_free", "pln_premium", "pln_enterprise"])
          , ("advanced-analytics", ["pln_premium", "pln_enterprise"])
          , ("api-access", ["pln_premium", "pln_enterprise"])
          , ("export-data", ["pln_premium", "pln_enterprise"])
          , ("custom-branding", ["pln_premium", "pln_enterprise"])
          , ("white-label", ["pln_enterprise"])
          , ("sso", ["pln_enterprise"])
          , ("audit-logs", ["pln_enterprise"])
          , ("profile-management", ["pln_free", "pln_premium", "pln_enterprise"]) ]}
    settings :=
      { enableDebugMode := false
        sessionTimeout := 30
        redirectDelay := 100
        cacheExpiry := 5 } }

-- =============================================================================
-- CLAIM-SIDE DEFINITIONS (written from the spec's words, for refinement claims)
-- =============================================================================

/-- The route-access behaviour as the spec words it: find the first entry whose path
equals the request path or is a prefix of it; if none, allow; otherwise apply the
authentication, plan and permission checks in order, reporting only the first failure.
(The spec does not mention `suggestedAction`; it is left `none` here and excluded from
the comparison.) -/
def routeAccessClaim (cfg : AuthConfig) (member : Option Member) (path : String) :
    AccessCheckResult :=
  match cfg.routes.protectedRoutes.find? (fun rule =>
      rule.path == path || jsStartsWith path rule.path) with
  | none => { hasAccess := true }
  | some rule =>
    if !(rule.allowUnauthenticated.getD false) && member.isNone then
      { hasAccess := false, reason := some "Authentication required" }
    else if hasEntries rule.requiredPlans &&
        !((rule.requiredPlans.getD []).any (fun planId =>
          (getActivePlanIds member).contains planId)) then
      { hasAccess := false, reason := some "Plan upgrade required"
        requiredPlans := rule.requiredPlans }
    else if hasEntries rule.requiredPermissions &&
        !((rule.requiredPermissions.getD []).any (fun permission =>
          (getMemberPermissions cfg member).contains permission)) then
      { hasAccess := false, reason := some "Insufficient permissions"
        requiredPermissions := rule.requiredPermissions }
    else { hasAccess := true }

/-- The feature-access behaviour as the spec words it: unknown feature first (even for a
null member), then authentication, then any-of membership of the member's active plan
ids in the feature's plan list. -/
def featureAccessClaim (cfg : AuthConfig) (member : Option Member) (featureName : String) :
    AccessCheckResult :=
  match recordLookup cfg.contentGating.features featureName with
  | none => { hasAccess := false, reason := some ("Unknown feature: " ++ featureName) }
  | some planList =>
    match member with
    | none =>
      { hasAccess := false, reason := some "Authentication required"
        requiredPlans := some planList }
    | some _ =>
      if (getActivePlanIds member).any (fun planId => planList.contains planId) then
        { hasAccess := true }
      else
        { hasAccess := false, reason := some "Plan upgrade required"
          requiredPlans := some planList }

/-- The per-rule decision taken by `hasRouteAccess` once a matching entry is found
(the body of its `some` branch). -/
def routeRuleDecision (cfg : AuthConfig) (member : Option Member) (rule : AuthRoute) :
    AccessCheckResult :=
  if !(rule.allowUnauthenticated.getD false) && member.isNone then
    { hasAccess := false
      reason := some "Authentication required"
      suggestedAction := some "Please log in to access this page" }
  else if hasEntries rule.requiredPlans &&
      !(hasPlan member (rule.requiredPlans.getD [])) then
    { hasAccess := false
      reason := some "Plan upgrade required"
      requiredPlans := rule.requiredPlans
      suggestedAction := some "Please upgrade your plan to access this feature" }
  else if hasEntries rule.requiredPermissions &&
      !((rule.requiredPermissions.getD []).any (fun permission =>
        (getMemberPermissions cfg member).contains permission)) then
    { hasAccess := false
      reason := some "Insufficient permissions"
      requiredPermissions := rule.requiredPermissions
      suggestedAction := some "You do not have permission to access this page" }
  else { hasAccess := true }

/-- Route access as governed solely by the first matching entry. -/
def firstMatchDecision (cfg : AuthConfig) (member : Option Member) (path : String) :
    AccessCheckResult :=
  match findProtectedRoute cfg path with
  | none => { hasAccess := true }
  | some rule => routeRuleDecision cfg member rule

/-- Replace every protected route's `requiredFeatures` field (used to show the field is
never consulted by `hasRouteAccess`). -/
def mapRouteFeatures (f : AuthRoute → Option (List String)) (cfg : AuthConfig) : AuthConfig :=
  { cfg with routes :=
      { cfg.routes with protectedRoutes :=
          cfg.routes.protectedRoutes.map (fun r => { r with requiredFeatures := f r }) } }

/-- A member extended with further plan connections. -/
def extendMember (m : Member) (extra : List PlanConnection) : Member :=
  { m with planConnections := m.planConnections ++ extra }

/-- Does the member-or-null have zero active plan connections? -/
def hasNoActiveConnections (member : Option Member) : Bool :=
  match member with
  | none => true
  | some m => (m.planConnections.filter (·.active)).isEmpty

-- =============================================================================
-- CONCRETE INSTANCES (members and small rule sets used in witnesses and
-- counterexamples)
-- =============================================================================

/-- A member holding only the free plan. -/
def mFree : Member :=
  { id := "mem_1", permissions := []
    planConnections := [{ id := "conn_1", planId := "pln_free", active := true,
                          status := "active", type := "subscription" }] }

/-- An authenticated member with no plan connections and no direct permissions. -/
def memberNoPlans : Member :=
  { id := "mem_2", permissions := [], planConnections := [] }

def defaultRedirects : RedirectConfig :=
  { unauthenticated := "/login", afterLogin := "/dashboard", afterSignup := "/dashboard"
    afterLogout := "/", insufficientPermissions := "/dashboard", planRequired := "/pricing" }

def defaultSettings : SettingsConfig :=
  { enableDebugMode := false, sessionTimeout := 30, redirectDelay := 100, cacheExpiry := 5 }

/-- A small rule set built around a given protected-route list. -/
def smallConfig (routes : List AuthRoute) (plans : JsRecord PlanConfig)
    (components : JsRecord ContentGatingRule) (features : JsRecord (List String)) :
    AuthConfig :=
  { routes := { protectedRoutes := routes, publicRoutes := [], redirects := defaultRedirects }
    plans := plans
    contentGating := { components := components, features := features }
    settings := defaultSettings }

/-- `/a` entry with no plan requirement. -/
def routeOpen : AuthRoute := { path := "/a", allowUnauthenticated := some false }

/-- `/a` entry gated to the premium plan. -/
def routeGated : AuthRoute :=
  { path := "/a", requiredPlans := some ["pln_premium"], allowUnauthenticated := some false }

/-- Two rule sets that differ only in the declaration order of two entries matching
the same path. -/
def cfgGatedFirst : AuthConfig := smallConfig [routeGated, routeOpen] [] [] []

def cfgOpenFirst : AuthConfig := smallConfig [routeOpen, routeGated] [] [] []

/-- A rule set whose only dangling reference is a content-gating rule's plan id. -/
def cfgDanglingGatingPlan : AuthConfig :=
  smallConfig []
    [("pln_real", { id := "pln_real", name := "Real", routes := [], features := [],
                    permissions := [], priority := 1 })]
    [("GhostGate", { component := "GhostGate", requiredPlans := some ["pln_ghost"] })]
    []

/-- A protected route whose only plan requirement does not exist in the Plan map. -/
def routeGhost : AuthRoute :=
  { path := "/ghost", requiredPlans := some ["pln_ghost"], allowUnauthenticated := some false }

def cfgDanglingRoutePlan : AuthConfig := smallConfig [routeGhost] [] [] []

/-- A plan granting no features and no permissions. -/
def planBasic : PlanConfig :=
  { id := "pln_basic", name := "Basic", routes := [], features := [], permissions := []
    priority := 1 }

/-- A route requiring both a plan and a feature that `planBasic` does not grant. -/
def routeFeatureGated : AuthRoute :=
  { path := "/x", requiredPlans := some ["pln_basic"]
    requiredFeatures := some ["special-feature"], allowUnauthenticated := some false }

def cfgFeatureGatedRoute : AuthConfig :=
  smallConfig [routeFeatureGated] [("pln_basic", planBasic)] []
    [("special-feature", ["pln_other"])]

/-- A member whose only plan connection is inactive. -/
def mInactive : Member :=
  { id := "mem_4", permissions := ["read"]
    planConnections := [{ id := "conn_4", planId := "pln_premium", active := false,
                          status := "canceled", type := "subscription" }] }

/-- An extra active premium plan connection. -/
def connPremium : PlanConnection :=
  { id := "conn_5", planId := "pln_premium", active := true, status := "active",
    type := "subscription" }

/-- A member whose only active plan is `planBasic`. -/
def mBasic : Member :=
  { id := "mem_3", permissions := []
    planConnections := [{ id := "conn_3", planId := "pln_basic", active := true,
                          status := "active", type := "subscription" }] }

/-- A route with an empty plan list but a non-empty permission list. -/
def routePermOnly : AuthRoute :=
  { path := "/a", requiredPlans := some [], requiredPermissions := some ["admin"]
    allowUnauthenticated := some false }

def cfgPermOnly : AuthConfig := smallConfig [routePermOnly] [] [] []

/-- A route with an empty plan list, no permission list and no unauthenticated escape. -/
def routeAuthOnly : AuthRoute :=
  { path := "/b", requiredPlans := some [], allowUnauthenticated := some false }

def cfgAuthOnly : AuthConfig := smallConfig [routeAuthOnly] [] [] []

-- =============================================================================
-- GENERAL LEMMAS
-- =============================================================================

theorem find?_congr_pred {α : Type} {p q : α → Bool} (h : ∀ a, p a = q a) :
    ∀ l : List α, l.find? p = l.find? q := by
  intro l
  induction l with
  | nil => rfl
  | cons b l ih =>
    rw [List.find?_cons, List.find?_cons, h b]
    cases q b <;> simp [ih]

theorem find?_first_match {α : Type} (p : α → Bool) :
    ∀ (l : List α) (a : α), l.find? p = some a →
      ∃ l1 l2, l = l1 ++ a :: l2 ∧ (∀ x ∈ l1, p x = false) ∧ p a = true := by
  intro l
  induction l with
  | nil => intro a h; simp at h
  | cons b l ih =>
    intro a h
    rw [List.find?_cons] at h
    cases hp : p b with
    | true =>
      rw [hp] at h
      refine ⟨[], l, ?_, by simp, ?_⟩
      · simpa using (Option.some_injective _ h).symm ▸ rfl
      · cases Option.some_injective _ h; exact hp
    | false =>
      rw [hp] at h
      obtain ⟨l1, l2, hsplit, hbefore, hfound⟩ := ih a h
      exact ⟨b :: l1, l2, by rw [hsplit]; rfl,
        by intro x hx; rcases List.mem_cons.mp hx with rfl | hx; exact hp; exact hbefore x hx,
        hfound⟩

/-- `hasRouteAccess` factors through the first matching entry's rule decision. -/
theorem hasRouteAccess_eq_firstMatchDecision (cfg : AuthConfig) (member : Option Member)
    (path : String) :
    hasRouteAccess cfg member path = firstMatchDecision cfg member path := by
  unfold hasRouteAccess firstMatchDecision routeRuleDecision
  cases findProtectedRoute cfg path <;> rfl

/-- `hasPlan` is the any-of membership of the required list against the active plan ids. -/
theorem hasPlan_eq_any (member : Option Member) (planIds : List String) :
    hasPlan member planIds =
      planIds.any (fun planId => (getActivePlanIds member).contains planId) := by
  cases member with
  | none => simp [hasPlan, getActivePlanIds]
  | some m => rfl

/-- Any-of membership of one list against another is symmetric. -/
theorem any_contains_comm (l1 l2 : List String) :
    l1.any (fun x => l2.contains x) = l2.any (fun x => l1.contains x) := by
  rw [Bool.eq_iff_iff]
  simp only [List.any_eq_true]
  constructor <;> rintro ⟨x, h1, h2⟩
  · exact ⟨x, by simpa using h2, by simpa using h1⟩
  · exact ⟨x, by simpa using h2, by simpa using h1⟩

-- =============================================================================
-- MONOTONICITY LEMMAS
-- =============================================================================

theorem mem_jsSetDedupAux (a : String) :
    ∀ (l seen : List String), a ∈ jsSetDedupAux seen l ↔ a ∈ l ∧ a ∉ seen := by
  intro l
  induction l with
  | nil => intro seen; simp [jsSetDedupAux]
  | cons x xs ih =>
    intro seen
    rw [jsSetDedupAux]
    by_cases hx : seen.contains x = true
    · rw [if_pos hx, ih]
      have hxs : x ∈ seen := by simpa using hx
      constructor
      · rintro ⟨h1, h2⟩; exact ⟨List.mem_cons_of_mem _ h1, h2⟩
      · rintro ⟨h1, h2⟩
        rcases List.mem_cons.mp h1 with rfl | h1
        · exact absurd hxs h2
        · exact ⟨h1, h2⟩
    · rw [if_neg hx]
      have hxs : x ∉ seen := by simpa using hx
      by_cases hax : a = x
      · subst hax
        simp [List.mem_cons, hxs]
      · rw [List.mem_cons, ih]
        simp only [List.mem_cons, hax, false_or]

theorem mem_jsSetDedup (a : String) (l : List String) : a ∈ jsSetDedup l ↔ a ∈ l := by
  rw [jsSetDedup, mem_jsSetDedupAux]
  simp

theorem getActivePlanIds_extend (m : Member) (extra : List PlanConnection) :
    getActivePlanIds (some (extendMember m extra)) =
      getActivePlanIds (some m) ++ (extra.filter (·.active)).map (·.planId) := by
  unfold getActivePlanIds extendMember
  simp [List.filter_append]

theorem hasPlan_extend (m : Member) (extra : List PlanConnection) (planIds : List String)
    (h : hasPlan (some m) planIds = true) :
    hasPlan (some (extendMember m extra)) planIds = true := by
  rw [hasPlan_eq_any] at h ⊢
  rw [getActivePlanIds_extend]
  simp only [List.any_eq_true] at h ⊢
  obtain ⟨x, hx, hc⟩ := h
  refine ⟨x, hx, ?_⟩
  have hm : x ∈ getActivePlanIds (some m) ++ (extra.filter (·.active)).map (·.planId) :=
    List.mem_append_left _ (by simpa using hc)
  simpa using hm

theorem mem_getActivePlans_extend (cfg : AuthConfig) (m : Member)
    (extra : List PlanConnection) (plan : PlanConfig)
    (h : plan ∈ getActivePlans cfg (some m)) :
    plan ∈ getActivePlans cfg (some (extendMember m extra)) := by
  unfold getActivePlans at h ⊢
  rw [List.mem_insertionSort] at h ⊢
  rw [getActivePlanIds_extend, List.filterMap_append]
  exact List.mem_append_left _ h

theorem mem_getMemberPermissions_extend (cfg : AuthConfig) (m : Member)
    (extra : List PlanConnection) (x : String)
    (h : x ∈ getMemberPermissions cfg (some m)) :
    x ∈ getMemberPermissions cfg (some (extendMember m extra)) := by
  unfold getMemberPermissions at h ⊢
  dsimp only at h ⊢
  rw [mem_jsSetDedup, List.mem_append] at h ⊢
  rcases h with h | h
  · exact Or.inl h
  · right
    rw [List.mem_flatMap] at h ⊢
    obtain ⟨plan, hp, hx⟩ := h
    exact ⟨plan, mem_getActivePlans_extend cfg m extra plan hp, hx⟩

theorem mem_getMemberFeatures_extend (cfg : AuthConfig) (m : Member)
    (extra : List PlanConnection) (x : String)
    (h : x ∈ getMemberFeatures cfg (some m)) :
    x ∈ getMemberFeatures cfg (some (extendMember m extra)) := by
  unfold getMemberFeatures at h ⊢
  rw [mem_jsSetDedup, List.mem_flatMap] at h ⊢
  obtain ⟨plan, hp, hx⟩ := h
  exact ⟨plan, mem_getActivePlans_extend cfg m extra plan hp, hx⟩

/-- An any-of check against `getMemberPermissions` that passes keeps passing after
extending the member's plan connections. -/
theorem permAny_extend (cfg : AuthConfig) (m : Member) (extra : List PlanConnection)
    (perms : List String)
    (h : perms.any (fun permission =>
      (getMemberPermissions cfg (some m)).contains permission) = true) :
    perms.any (fun permission =>
      (getMemberPermissions cfg (some (extendMember m extra))).contains permission)
      = true := by
  simp only [List.any_eq_true] at h ⊢
  obtain ⟨x, hx, hc⟩ := h
  refine ⟨x, hx, ?_⟩
  have hm : x ∈ getMemberPermissions cfg (some m) := by simpa using hc
  simpa using mem_getMemberPermissions_extend cfg m extra x hm

/-- An any-of check against `getMemberFeatures` that passes keeps passing after
extending the member's plan connections. -/
theorem featAny_extend (cfg : AuthConfig) (m : Member) (extra : List PlanConnection)
    (feats : List String)
    (h : feats.any (fun feature =>
      (getMemberFeatures cfg (some m)).contains feature) = true) :
    feats.any (fun feature =>
      (getMemberFeatures cfg (some (extendMember m extra))).contains feature) = true := by
  simp only [List.any_eq_true] at h ⊢
  obtain ⟨x, hx, hc⟩ := h
  refine ⟨x, hx, ?_⟩
  have hm : x ∈ getMemberFeatures cfg (some m) := by simpa using hc
  simpa using mem_getMemberFeatures_extend cfg m extra x hm

/-- A `requirement present && check fails` guard stays false when the check is
monotone. -/
theorem guard_transfer {b b' : Bool} (e : Bool) (hmono : b = true → b' = true)
    (h : (e && !b) = false) : (e && !b') = false := by
  cases e
  · rfl
  · rw [Bool.true_and] at h ⊢
    have hb : b = true := by simpa using h
    rw [hmono hb]
    rfl

/-- `routeRuleDecision` grants access iff all three guards are false. -/
theorem routeRuleDecision_hasAccess (cfg : AuthConfig) (member : Option Member)
    (rule : AuthRoute) :
    (routeRuleDecision cfg member rule).hasAccess = true ↔
      (!(rule.allowUnauthenticated.getD false) && member.isNone) = false ∧
      (hasEntries rule.requiredPlans &&
        !(hasPlan member (rule.requiredPlans.getD []))) = false ∧
      (hasEntries rule.requiredPermissions &&
        !((rule.requiredPermissions.getD []).any (fun permission =>
          (getMemberPermissions cfg member).contains permission))) = false := by
  unfold routeRuleDecision
  split_ifs with h1 h2 h3 <;> simp_all [Option.isSome_iff_ne_none]

/-- For a gated component, access for a non-null member holds iff all three guards are
false. -/
theorem componentDecision_hasAccess (cfg : AuthConfig) (m : Member)
    (componentName : String) (rule : ContentGatingRule)
    (hlook : recordLookup cfg.contentGating.components componentName = some rule) :
    (hasComponentAccess cfg (some m) componentName).hasAccess = true ↔
      (hasEntries rule.requiredPlans &&
        !(hasPlan (some m) (rule.requiredPlans.getD []))) = false ∧
      (hasEntries rule.requiredPermissions &&
        !((rule.requiredPermissions.getD []).any (fun permission =>
          (getMemberPermissions cfg (some m)).contains permission))) = false ∧
      (hasEntries rule.requiredFeatures &&
        !((rule.requiredFeatures.getD []).any (fun feature =>
          (getMemberFeatures cfg (some m)).contains feature))) = false := by
  unfold hasComponentAccess
  rw [hlook]
  dsimp only
  split_ifs with h1 h2 h3 <;> simp_all

theorem routeRuleDecision_monotone (cfg : AuthConfig) (m : Member)
    (extra : List PlanConnection) (rule : AuthRoute)
    (h : (routeRuleDecision cfg (some m) rule).hasAccess = true) :
    (routeRuleDecision cfg (some (extendMember m extra)) rule).hasAccess = true := by
  rw [routeRuleDecision_hasAccess] at h ⊢
  obtain ⟨_, h2, h3⟩ := h
  refine ⟨Bool.and_false _, ?_, ?_⟩
  · exact guard_transfer _ (fun hb => hasPlan_extend m extra _ hb) h2
  · exact guard_transfer _ (fun hb => permAny_extend cfg m extra _ hb) h3

-- =============================================================================
-- SORT STABILITY LEMMAS
-- =============================================================================

/-- Inserting a plan keeps the relative order of every priority class: the class of the
inserted plan gains it at the front (every skipped element has strictly greater
priority), other classes are untouched. -/
theorem filter_orderedInsert_priority (a : PlanConfig) (p : Int) (l : List PlanConfig) :
    (l.orderedInsert planOrder a).filter (fun x => x.priority == p) =
      if a.priority == p then a :: l.filter (fun x => x.priority == p)
      else l.filter (fun x => x.priority == p) := by
  induction l with
  | nil =>
    by_cases h : (a.priority == p) = true <;>
      simp [List.orderedInsert, List.filter_cons, h]
  | cons b l ih =>
    rw [show List.orderedInsert planOrder a (b :: l) =
        if planOrder a b then a :: b :: l else b :: List.orderedInsert planOrder a l
      from rfl]
    by_cases hab : planOrder a b
    · rw [if_pos hab]
      by_cases hap : (a.priority == p) = true <;> simp [List.filter_cons, hap]
    · rw [if_neg hab]
      have hlt : a.priority < b.priority := by
        unfold planOrder at hab
        omega
      by_cases hap : (a.priority == p) = true
      · have heq : a.priority = p := by simpa using hap
        have hbp : (b.priority == p) = false := by
          simp only [beq_eq_false_iff_ne, ne_eq]
          omega
        simp [List.filter_cons, hbp, ih, hap]
      · have hap' : (a.priority == p) = false := by simpa using hap
        by_cases hbp : (b.priority == p) = true <;>
          simp [List.filter_cons, hbp, ih, hap']

/-- The stable descending sort keeps each priority class in input order. -/
theorem filter_insertionSort_priority (p : Int) (l : List PlanConfig) :
    (l.insertionSort planOrder).filter (fun x => x.priority == p) =
      l.filter (fun x => x.priority == p) := by
  induction l with
  | nil => rfl
  | cons a l ih =>
    rw [List.insertionSort, filter_orderedInsert_priority, List.filter_cons]
    by_cases h : (a.priority == p) = true <;> simp [h, ih]

-- =============================================================================
-- CLAIM THEOREMS
-- =============================================================================

/-- Claim C1: for every member-or-null and every path, `hasRouteAccess` allows when no
protected-route entry's path equals the path or is a prefix of it, and otherwise applies
exactly the ordered, short-circuiting authentication → plan → permission checks of the
first matching rule, reporting only the first failing check with its reason and echoed
requirement lists. -/
theorem hasRouteAccess_matches_claim (cfg : AuthConfig) (member : Option Member)
    (path : String) :
    (hasRouteAccess cfg member path).hasAccess = (routeAccessClaim cfg member path).hasAccess ∧
    (hasRouteAccess cfg member path).reason = (routeAccessClaim cfg member path).reason ∧
    (hasRouteAccess cfg member path).requiredPlans =
      (routeAccessClaim cfg member path).requiredPlans ∧
    (hasRouteAccess cfg member path).requiredPermissions =
      (routeAccessClaim cfg member path).requiredPermissions := by
  have hpred : ∀ r : AuthRoute,
      (jsStartsWith path r.path || r.path == path) =
      (r.path == path || jsStartsWith path r.path) := fun r => Bool.or_comm _ _
  have hfind : findProtectedRoute cfg path =
      cfg.routes.protectedRoutes.find? (fun rule =>
        rule.path == path || jsStartsWith path rule.path) := by
    unfold findProtectedRoute
    exact find?_congr_pred hpred _
  unfold hasRouteAccess routeAccessClaim
  rw [hfind]
  cases cfg.routes.protectedRoutes.find? (fun rule =>
      rule.path == path || jsStartsWith path rule.path) with
  | none => exact ⟨rfl, rfl, rfl, rfl⟩
  | some rule =>
    dsimp only
    rw [hasPlan_eq_any]
    split_ifs <;> exact ⟨rfl, rfl, rfl, rfl⟩

/-- Claim C2: `hasRouteAccess`'s decision is governed by the first matching entry in
declaration order: the rule list is scanned linearly (every entry before the governing
one fails the match), and swapping which of two matching entries comes first can change
the decision, as `cfgGatedFirst`/`cfgOpenFirst` show. -/
theorem hasRouteAccess_first_match_governs :
    (∀ cfg member path,
      hasRouteAccess cfg member path = firstMatchDecision cfg member path) ∧
    (∀ cfg path rule, findProtectedRoute cfg path = some rule →
      ∃ before after, cfg.routes.protectedRoutes = before ++ rule :: after ∧
        (∀ r ∈ before, (jsStartsWith path r.path || r.path == path) = false) ∧
        (jsStartsWith path rule.path || rule.path == path) = true) ∧
    hasRouteAccess cfgGatedFirst (some memberNoPlans) "/a" ≠
      hasRouteAccess cfgOpenFirst (some memberNoPlans) "/a" := by
  refine ⟨hasRouteAccess_eq_firstMatchDecision, ?_, by decide⟩
  intro cfg path rule h
  exact find?_first_match _ _ _ h

/-- Closed instance of C2's first-match characterisation at the shipped rule set: the
`/dashboard` entry is found for a nested path, with no earlier matching entry. -/
theorem hasRouteAccess_first_match_governs_witness :
    (∃ before after,
      authConfig.routes.protectedRoutes = before ++
        ({ path := "/dashboard"
           requiredPlans := some ["pln_free", "pln_premium", "pln_enterprise"]
           allowUnauthenticated := some false } : AuthRoute) :: after ∧
      (∀ r ∈ before, (jsStartsWith "/dashboard/reports" r.path || r.path == "/dashboard/reports") = false) ∧
      (jsStartsWith "/dashboard/reports" "/dashboard" || "/dashboard" == "/dashboard/reports") = true) :=
  hasRouteAccess_first_match_governs.2.1 authConfig "/dashboard/reports" _ (by decide)

/-- Claim C3: `hasFeatureAccess` reports an unknown feature first (even for a null member),
then requires authentication (echoing the feature's plan list), and otherwise grants
access iff some active plan id of the member is in the feature's plan list, reporting
"Plan upgrade required" with that list on failure. -/
theorem hasFeatureAccess_matches_claim (cfg : AuthConfig) (member : Option Member)
    (featureName : String) :
    (hasFeatureAccess cfg member featureName).hasAccess =
      (featureAccessClaim cfg member featureName).hasAccess ∧
    (hasFeatureAccess cfg member featureName).reason =
      (featureAccessClaim cfg member featureName).reason ∧
    (hasFeatureAccess cfg member featureName).requiredPlans =
      (featureAccessClaim cfg member featureName).requiredPlans := by
  unfold hasFeatureAccess featureAccessClaim
  cases recordLookup cfg.contentGating.features featureName with
  | none => exact ⟨rfl, rfl, rfl⟩
  | some planList =>
    cases member with
    | none => exact ⟨rfl, rfl, rfl⟩
    | some m =>
      dsimp only
      rw [hasPlan_eq_any, any_contains_comm]
      cases h : (getActivePlanIds (some m)).any (fun planId => planList.contains planId) <;>
        simp [h]

/-- Claim C9: `canUpgradeToPlan` returns true for a null member, and for a non-null member
returns true exactly when the member's primary plan and the target plan both resolve in
the Plan map and the target's priority is strictly greater — so it is false for an
unknown target id, for a member with no recognised active plan, and for equal
priorities. -/
theorem canUpgradeToPlan_characterisation (cfg : AuthConfig) (m : Member)
    (targetPlanId : String) :
    canUpgradeToPlan cfg none targetPlanId = true ∧
    (canUpgradeToPlan cfg (some m) targetPlanId = true ↔
      ∃ currentPlan targetPlan,
        getPrimaryPlan cfg (some m) = some currentPlan ∧
        recordLookup cfg.plans targetPlanId = some targetPlan ∧
        currentPlan.priority < targetPlan.priority) := by
  refine ⟨rfl, ?_⟩
  unfold canUpgradeToPlan
  cases hc : getPrimaryPlan cfg (some m) with
  | none => simp
  | some currentPlan =>
    cases ht : recordLookup cfg.plans targetPlanId with
    | none => simp
    | some targetPlan => simp

/-- Claim C10: every component name with a configured content-gating rule is closed to null
members with reason "Authentication required" (echoing the rule's `requiredPlans`),
regardless of the rule's contents; a component with no rule is open to null members. -/
theorem hasComponentAccess_null_member (cfg : AuthConfig) (componentName : String) :
    (∀ rule, recordLookup cfg.contentGating.components componentName = some rule →
      hasComponentAccess cfg none componentName =
        { hasAccess := false
          reason := some "Authentication required"
          requiredPlans := rule.requiredPlans
          suggestedAction := some "Please log in to access this feature" }) ∧
    (recordLookup cfg.contentGating.components componentName = none →
      hasComponentAccess cfg none componentName = { hasAccess := true }) := by
  constructor
  · intro rule h
    unfold hasComponentAccess
    rw [h]
  · intro h
    unfold hasComponentAccess
    rw [h]

/-- Closed instance of C10 at the shipped rule set: `AdminPanel` (which has a rule) is
closed to null members, and an unconfigured component name is open. -/
theorem hasComponentAccess_null_member_witness :
    recordLookup authConfig.contentGating.components "AdminPanel" =
      some { component := "AdminPanel", requiredPlans := some ["pln_enterprise"]
             requiredPermissions := some ["admin"], fallbackComponent := some "AccessDenied" } ∧
    hasComponentAccess authConfig none "AdminPanel" =
      { hasAccess := false, reason := some "Authentication required"
        requiredPlans := some ["pln_enterprise"]
        suggestedAction := some "Please log in to access this feature" } ∧
    recordLookup authConfig.contentGating.components "FreeWidget" = none ∧
    hasComponentAccess authConfig none "FreeWidget" = { hasAccess := true } :=
  ⟨by decide,
   (hasComponentAccess_null_member authConfig "AdminPanel").1
     { component := "AdminPanel", requiredPlans := some ["pln_enterprise"]
       requiredPermissions := some ["admin"], fallbackComponent := some "AccessDenied" }
     (by decide),
   by decide,
   (hasComponentAccess_null_member authConfig "FreeWidget").2 (by decide)⟩

/-- Claim C4 counterexample: a rule set whose only dangling plan reference sits in a
content-gating rule's `requiredPlans` validates with an empty error list —
`validateAuthConfig` does not check plan ids referenced by content-gating rules. -/
theorem validateAuthConfig_skips_gating_plan_refs :
    recordLookup cfgDanglingGatingPlan.contentGating.components "GhostGate" =
      some { component := "GhostGate", requiredPlans := some ["pln_ghost"] } ∧
    recordLookup cfgDanglingGatingPlan.plans "pln_ghost" = none ∧
    validateAuthConfig cfgDanglingGatingPlan = [] := by decide

/-- Claim C4 amended: `validateAuthConfig` returns an error string for every plan id
referenced by a ProtectedRoute's `requiredPlans` that does not exist in the Plan map
(content-gating plan references are not checked, per the counterexample). -/
theorem validateAuthConfig_reports_route_plan_refs (cfg : AuthConfig) (route : AuthRoute)
    (planId : String) (hroute : route ∈ cfg.routes.protectedRoutes)
    (hplan : planId ∈ route.requiredPlans.getD [])
    (hmissing : recordLookup cfg.plans planId = none) :
    ("Route " ++ route.path ++ " references non-existent plan: " ++ planId) ∈
      validateAuthConfig cfg := by
  unfold validateAuthConfig
  dsimp only
  refine List.mem_append_left _ (List.mem_append_left _ ?_)
  rw [List.mem_flatMap]
  refine ⟨route, hroute, ?_⟩
  rw [List.mem_filterMap]
  refine ⟨planId, hplan, ?_⟩
  rw [hmissing]
  rfl

/-- Closed instance of C4's amended theorem: a route referencing the unknown plan
`pln_ghost` produces the corresponding error string. -/
theorem validateAuthConfig_reports_route_plan_refs_witness :
    routeGhost ∈ cfgDanglingRoutePlan.routes.protectedRoutes ∧
    "pln_ghost" ∈ routeGhost.requiredPlans.getD [] ∧
    recordLookup cfgDanglingRoutePlan.plans "pln_ghost" = none ∧
    ("Route " ++ routeGhost.path ++ " references non-existent plan: " ++ "pln_ghost") ∈
      validateAuthConfig cfgDanglingRoutePlan :=
  ⟨by decide, by decide, by decide,
   validateAuthConfig_reports_route_plan_refs cfgDanglingRoutePlan routeGhost "pln_ghost"
     (by decide) (by decide) (by decide)⟩

/-- Claim C5 counterexample: a member who satisfies the authentication, plan and permission
checks of a route that declares a non-empty `requiredFeatures` list, but holds none of
those features, is nevertheless granted access by `hasRouteAccess`. -/
theorem hasRouteAccess_grants_despite_missing_features :
    findProtectedRoute cfgFeatureGatedRoute "/x" = some routeFeatureGated ∧
    routeFeatureGated.requiredFeatures = some ["special-feature"] ∧
    hasPlan (some mBasic) (routeFeatureGated.requiredPlans.getD []) = true ∧
    (getMemberFeatures cfgFeatureGatedRoute (some mBasic)).contains "special-feature"
      = false ∧
    hasRouteAccess cfgFeatureGatedRoute (some mBasic) "/x" = { hasAccess := true } := by
  decide

/-- Claim C5 amended: `hasRouteAccess` never evaluates a route's `requiredFeatures`:
rewriting that field on every protected route (to anything) leaves every decision
unchanged, so a member passing the authentication, plan and permission checks is
granted access no matter which required features they lack. -/
theorem hasRouteAccess_ignores_requiredFeatures (f : AuthRoute → Option (List String))
    (cfg : AuthConfig) (member : Option Member) (path : String) :
    hasRouteAccess (mapRouteFeatures f cfg) member path = hasRouteAccess cfg member path := by
  unfold hasRouteAccess findProtectedRoute mapRouteFeatures
  dsimp only
  rw [List.find?_map]
  have hpred : ((fun route => jsStartsWith path route.path || route.path == path) ∘
      (fun r : AuthRoute => { r with requiredFeatures := f r })) =
      (fun route : AuthRoute => jsStartsWith path route.path || route.path == path) := rfl
  rw [hpred]
  cases cfg.routes.protectedRoutes.find? (fun route =>
      jsStartsWith path route.path || route.path == path) <;> rfl

/-- Claim C6 counterexample: a protected route with `requiredPlans = []` and
`allowUnauthenticated = false` but a non-empty `requiredPermissions` list denies a
non-null member who lacks the permission, so the claim's unconditional grant fails. -/
theorem emptyPlans_route_with_permissions_denies :
    findProtectedRoute cfgPermOnly "/a" = some routePermOnly ∧
    routePermOnly.requiredPlans = some [] ∧
    routePermOnly.allowUnauthenticated = some false ∧
    (hasRouteAccess cfgPermOnly (some memberNoPlans) "/a").hasAccess = false ∧
    (hasRouteAccess cfgPermOnly (some memberNoPlans) "/a").reason =
      some "Insufficient permissions" := by decide

/-- Claim C6 amended: for every matched route whose `requiredPlans` and
`requiredPermissions` are empty (or absent) and whose `allowUnauthenticated` is false,
`hasRouteAccess` grants access to every non-null member regardless of plans, and denies
every null member with reason "Authentication required". -/
theorem emptyPlans_noPerms_route_access (cfg : AuthConfig) (path : String)
    (rule : AuthRoute) (m : Member)
    (hfind : findProtectedRoute cfg path = some rule)
    (hplans : rule.requiredPlans.getD [] = [])
    (hperms : rule.requiredPermissions.getD [] = [])
    (hauth : rule.allowUnauthenticated.getD false = false) :
    hasRouteAccess cfg (some m) path = { hasAccess := true } ∧
    (hasRouteAccess cfg none path).hasAccess = false ∧
    (hasRouteAccess cfg none path).reason = some "Authentication required" := by
  unfold hasRouteAccess
  rw [hfind]
  dsimp only
  simp [hasEntries, hplans, hperms, hauth]

/-- Closed instance of C6's amended theorem at a route with an empty plan list and no
permission requirement. -/
theorem emptyPlans_noPerms_route_access_witness :
    findProtectedRoute cfgAuthOnly "/b" = some routeAuthOnly ∧
    routeAuthOnly.requiredPlans.getD [] = [] ∧
    routeAuthOnly.requiredPermissions.getD [] = [] ∧
    routeAuthOnly.allowUnauthenticated.getD false = false ∧
    (hasRouteAccess cfgAuthOnly (some memberNoPlans) "/b" = { hasAccess := true } ∧
      (hasRouteAccess cfgAuthOnly none "/b").hasAccess = false ∧
      (hasRouteAccess cfgAuthOnly none "/b").reason = some "Authentication required") :=
  ⟨by decide, by decide, by decide, by decide,
   emptyPlans_noPerms_route_access cfgAuthOnly "/b" routeAuthOnly memberNoPlans
     (by decide) (by decide) (by decide) (by decide)⟩

/-- Claim C7: access is monotone in the member's active plan set — extending a member with
further plan connections preserves every granted route, feature and component access
decision. -/
theorem access_monotone_in_active_plans (cfg : AuthConfig) (m : Member)
    (extra : List PlanConnection) (path featureName componentName : String) :
    ((hasRouteAccess cfg (some m) path).hasAccess = true →
      (hasRouteAccess cfg (some (extendMember m extra)) path).hasAccess = true) ∧
    ((hasFeatureAccess cfg (some m) featureName).hasAccess = true →
      (hasFeatureAccess cfg (some (extendMember m extra)) featureName).hasAccess = true) ∧
    ((hasComponentAccess cfg (some m) componentName).hasAccess = true →
      (hasComponentAccess cfg (some (extendMember m extra)) componentName).hasAccess
        = true) := by
  refine ⟨?_, ?_, ?_⟩
  · intro h
    rw [hasRouteAccess_eq_firstMatchDecision] at h ⊢
    unfold firstMatchDecision at h ⊢
    cases hf : findProtectedRoute cfg path with
    | none => rfl
    | some rule =>
      rw [hf] at h
      exact routeRuleDecision_monotone cfg m extra rule h
  · intro h
    unfold hasFeatureAccess at h ⊢
    cases hl : recordLookup cfg.contentGating.features featureName with
    | none =>
      rw [hl] at h
      exact absurd h (by simp)
    | some planList =>
      rw [hl] at h
      dsimp only at h ⊢
      by_cases hb : hasPlan (some m) planList = true
      · rw [hasPlan_extend m extra _ hb]
        rfl
      · rw [Bool.not_eq_true] at hb
        rw [hb] at h
        exact absurd h (by simp)
  · intro h
    cases hl : recordLookup cfg.contentGating.components componentName with
    | none =>
      unfold hasComponentAccess
      rw [hl]
    | some rule =>
      rw [componentDecision_hasAccess cfg (extendMember m extra) componentName rule hl]
      rw [componentDecision_hasAccess cfg m componentName rule hl] at h
      obtain ⟨h1, h2, h3⟩ := h
      refine ⟨?_, ?_, ?_⟩
      · exact guard_transfer _ (fun hb => hasPlan_extend m extra _ hb) h1
      · exact guard_transfer _ (fun hb => permAny_extend cfg m extra _ hb) h2
      · exact guard_transfer _ (fun hb => featAny_extend cfg m extra _ hb) h3

/-- Closed instance of C7 at the shipped rule set: the free member keeps dashboard
route access, basic-support feature access, and (vacuously gated) component access
after gaining an active premium connection. -/
theorem access_monotone_in_active_plans_witness :
    ((hasRouteAccess authConfig (some mFree) "/dashboard").hasAccess = true ∧
      (hasRouteAccess authConfig (some (extendMember mFree [connPremium]))
        "/dashboard").hasAccess = true) ∧
    ((hasFeatureAccess authConfig (some mFree) "basic-support").hasAccess = true ∧
      (hasFeatureAccess authConfig (some (extendMember mFree [connPremium]))
        "basic-support").hasAccess = true) ∧
    ((hasComponentAccess authConfig (some mFree) "FreeWidget").hasAccess = true ∧
      (hasComponentAccess authConfig (some (extendMember mFree [connPremium]))
        "FreeWidget").hasAccess = true) :=
  ⟨⟨by decide,
    (access_monotone_in_active_plans authConfig mFree [connPremium] "/dashboard"
      "basic-support" "FreeWidget").1 (by decide)⟩,
   ⟨by decide,
    (access_monotone_in_active_plans authConfig mFree [connPremium] "/dashboard"
      "basic-support" "FreeWidget").2.1 (by decide)⟩,
   ⟨by decide,
    (access_monotone_in_active_plans authConfig mFree [connPremium] "/dashboard"
      "basic-support" "FreeWidget").2.2 (by decide)⟩⟩

/-- Claim C8: `getActivePlans` consists exactly of the active plan ids resolved through the
Plan map with unknown ids silently dropped (as a permutation), is sorted by priority
descending, keeps every priority class in input order (stable sort), and for a
member-or-null with zero active plan connections it is empty with `getPrimaryPlan`
returning none. -/
theorem getActivePlans_characterisation (cfg : AuthConfig) (member : Option Member) :
    (getActivePlans cfg member).Perm
      ((getActivePlanIds member).filterMap (recordLookup cfg.plans)) ∧
    List.Sorted planOrder (getActivePlans cfg member) ∧
    (∀ p : Int, (getActivePlans cfg member).filter (fun plan => plan.priority == p) =
      ((getActivePlanIds member).filterMap (recordLookup cfg.plans)).filter
        (fun plan => plan.priority == p)) ∧
    (hasNoActiveConnections member = true →
      getActivePlans cfg member = [] ∧ getPrimaryPlan cfg member = none) := by
  refine ⟨List.perm_insertionSort _ _, List.sorted_insertionSort _ _,
    fun p => filter_insertionSort_priority p _, ?_⟩
  intro h
  have hids : getActivePlanIds member = [] := by
    cases member with
    | none => rfl
    | some m =>
      unfold hasNoActiveConnections at h
      unfold getActivePlanIds
      dsimp only
      rw [List.isEmpty_iff] at h
      rw [h]
      rfl
  constructor
  · unfold getActivePlans
    rw [hids]
    rfl
  · unfold getPrimaryPlan getHighestPriorityPlan
    rw [hids]
    rfl

/-- Closed instance of C8's zero-active-connections clause: a member whose only
connection is inactive has no active plans and no primary plan. -/
theorem getActivePlans_characterisation_witness :
    hasNoActiveConnections (some mInactive) = true ∧
    (getActivePlans authConfig (some mInactive) = [] ∧
      getPrimaryPlan authConfig (some mInactive) = none) :=
  ⟨by decide,
   (getActivePlans_characterisation authConfig (some mInactive)).2.2.2 (by decide)⟩
